import Mathlib

set_option maxRecDepth 100000

/-!
Shallow embedding of the task-tracker's validation and data-integrity layer
(`validations.py` and the route handlers of `app.py`), with theorems checking
the specification's claims against it.

Strings are modelled by Lean `String` (a list of characters); Python string
helpers (`strip`, `replace`, `split`) are re-implemented below on the
character list so that every definition reduces in the kernel.
-/

/-- Python `str.strip()`: drop whitespace from both ends. -/
def pyStrip (s : String) : String :=
  String.mk (((s.data.dropWhile Char.isWhitespace).reverse.dropWhile Char.isWhitespace).reverse)

/-- One left-to-right, non-overlapping pass of Python `str.replace(pat, rep)`
over the character list. Structural recursion on a fuel argument (one unit per
consumed source position, so `s.length` units always suffice) keeps the
function kernel-reducible. -/
def replaceFuel (pat rep : List Char) : Nat → List Char → List Char
  | 0, s => s
  | fuel + 1, s =>
    match s with
    | [] => []
    | c :: rest =>
      if pat ≠ [] ∧ pat.isPrefixOf (c :: rest) then
        rep ++ replaceFuel pat rep fuel ((c :: rest).drop pat.length)
      else
        c :: replaceFuel pat rep fuel rest

/-- Python `s.replace(pat, rep)`. -/
def pyReplace (s pat rep : String) : String :=
  String.mk (replaceFuel pat.data rep.data s.data.length s.data)

/-- Python `s.split(c)` for a one-character separator. -/
def splitOnChar (c : Char) (s : List Char) : List (List Char) :=
  s.foldr
    (fun ch acc =>
      if ch = c then [] :: acc
      else
        match acc with
        | g :: gs => (ch :: g) :: gs
        | [] => [[ch]])
    [[]]

/-- Numeric value of a list of decimal digit characters. -/
def natOfDigits (ds : List Char) : Nat :=
  ds.foldl (fun n c => n * 10 + (c.toNat - 48)) 0

/-! ## Error messages (verbatim from `validations.py`) -/

def titleRequiredErr : String := "Task title is required."
def titleTooShortErr : String := "Task title must be at least 3 characters long."
def titleTooLongErr : String := "Task title cannot exceed 200 characters."
def titleInvalidCharErr : String := "Task title contains invalid characters."
def descTooLongErr : String := "Description cannot exceed 1000 characters."
def priorityInvalidErr : String := "Invalid priority. Must be one of: Low, Medium, High."
def datePastErr : String := "Due date cannot be in the past."
def dateFutureErr : String := "Due date is too far in the future (max 5 years)."
def dateFormatErr : String := "Invalid date format. Please use YYYY-MM-DD format."

/-! ## Field validators (`TaskValidator` in `validations.py`)

A Python argument that may be `None` is an `Option String`; the Python
truthiness test `if x:` on an optional string is `x` being `some s` with
`s` non-empty. -/

/-- Punctuation accepted in titles: `. , ! ? - _ ( ) [ ] \x7b \x7d : ; " '`. -/
def allowedPunct : List Char := ".,!?-_()[]\x7b\x7d:;\x22\x27".data

/-- `c.isalnum() or c.isspace() or c in '.,!?-_()[]\x7b\x7d:;"\x27'`. -/
def isAllowedTitleChar (c : Char) : Bool :=
  c.isAlphanum || c.isWhitespace || allowedPunct.contains c

/-- `TaskValidator.validate_title`. -/
def validate_title (title : Option String) : Bool × List String :=
  match title with
  | none => (false, [titleRequiredErr])
  | some raw =>
    if raw = "" then (false, [titleRequiredErr])
    else
      let t := pyStrip raw
      let errors : List String :=
        (if t.length < 3 then [titleTooShortErr] else []) ++
        (if 200 < t.length then [titleTooLongErr] else []) ++
        (if !(t.data.all isAllowedTitleChar) then [titleInvalidCharErr] else [])
      (errors.isEmpty, errors)

/-- `TaskValidator.validate_description`. -/
def validate_description (description : Option String) : Bool × List String :=
  let errors : List String :=
    match description with
    | none => []
    | some s =>
      if s = "" then []
      else if 1000 < (pyStrip s).length then [descTooLongErr] else []
  (errors.isEmpty, errors)

/-- `TaskValidator.validate_priority`. -/
def validate_priority (priority : Option String) : Bool × List String :=
  let errors : List String :=
    match priority with
    | none => []
    | some s =>
      if s ≠ "" ∧ s ∉ (["Low", "Medium", "High"] : List String) then [priorityInvalidErr]
      else []
  (errors.isEmpty, errors)

/-! ## Sanitizer (`sanitize_input` in `validations.py`) -/

/-- The fixed denylist of substrings stripped by the sanitizer, in the order
the source applies them. -/
def denylist : List String := ["<script>", "</script>", "javascript:", "onerror=", "onclick="]

/-- Spec-side description of the stripping step: remove the occurrences of
each denylist substring, one substitution pass per entry, in order. -/
def stripDenylist (s : String) : String :=
  denylist.foldl (fun v p => pyReplace v p "") s

/-- `sanitize_input`: `None` maps to `None`; otherwise trim, map an empty
trimmed string to `None`, and apply the five denylist replacements. -/
def sanitize_input : Option String → Option String
  | none => none
  | some v =>
    let v := pyStrip v
    if v = "" then none
    else some (pyReplace (pyReplace (pyReplace (pyReplace (pyReplace
      v "<script>" "") "</script>" "") "javascript:" "") "onerror=" "") "onclick=" "")

/-- Occurrence of `needle` as a contiguous subsequence, by direct scan. -/
def containsSeq (needle : List Char) : List Char → Bool
  | [] => needle.isEmpty
  | c :: rest => needle.isPrefixOf (c :: rest) || containsSeq needle rest

/-- `hasSubstr hay needle` decides whether `needle` occurs in `hay`. -/
def hasSubstr (hay needle : String) : Bool :=
  containsSeq needle.data hay.data

/-! ## Calendar dates

Python `datetime.date` values, with `datetime.strptime(s, "%Y-%m-%d")`
modelled by `parseDate` and `datetime(y, m, d)` construction by `mkDate`
(returning `none` where Python raises `ValueError`). -/

structure Date where
  year : Nat
  month : Nat
  day : Nat
deriving Repr, DecidableEq

/-- Gregorian leap-year rule. -/
def isLeapYear (y : Nat) : Bool :=
  y % 4 == 0 && (y % 100 != 0 || y % 400 == 0)

/-- Number of days in a month. -/
def daysInMonth (y m : Nat) : Nat :=
  if m = 2 then (if isLeapYear y then 29 else 28)
  else if m = 4 ∨ m = 6 ∨ m = 9 ∨ m = 11 then 30
  else 31

/-- The `(year, month, day)` triples `datetime.date` accepts. -/
def validDate (y m d : Nat) : Bool :=
  decide (1 ≤ y) && decide (y ≤ 9999) && decide (1 ≤ m) && decide (m ≤ 12) &&
    decide (1 ≤ d) && decide (d ≤ daysInMonth y m)

/-- `datetime(y, m, d)`: `some` date, or `none` where Python raises. -/
def mkDate (y m d : Nat) : Option Date :=
  if validDate y m d then some ⟨y, m, d⟩ else none

/-- Python `date.__lt__`: lexicographic on `(year, month, day)`. -/
def dateLt (a b : Date) : Bool :=
  decide (a.year < b.year ∨ (a.year = b.year ∧
    (a.month < b.month ∨ (a.month = b.month ∧ a.day < b.day))))

/-- `datetime.strptime(s, "%Y-%m-%d").date()`: exactly four digits of year,
one or two digits of month and of day separated by `-`, nothing else, and the
values must form a valid calendar date. -/
def parseDate (s : String) : Option Date :=
  match splitOnChar '-' s.data with
  | [ys, ms, ds] =>
    if ys.length = 4 ∧ ys.all Char.isDigit ∧
        1 ≤ ms.length ∧ ms.length ≤ 2 ∧ ms.all Char.isDigit ∧
        1 ≤ ds.length ∧ ds.length ≤ 2 ∧ ds.all Char.isDigit then
      let y := natOfDigits ys
      let m := natOfDigits ms
      let d := natOfDigits ds
      if validDate y m d then some ⟨y, m, d⟩ else none
    else none
  | _ => none

/-- Days before the start of year `y` in the proleptic Gregorian calendar
(Python `date.toordinal` counts from `0001-01-01 = 1`). -/
def daysBeforeYear (y : Nat) : Nat :=
  let n := y - 1
  n * 365 + n / 4 - n / 100 + n / 400

/-- Days before the start of month `m` within year `y`. -/
def daysBeforeMonth (y m : Nat) : Nat :=
  (List.range (m - 1)).foldl (fun acc i => acc + daysInMonth y (i + 1)) 0

/-- Python `date.toordinal`. -/
def Date.toOrdinal (d : Date) : Nat :=
  daysBeforeYear d.year + daysBeforeMonth d.year d.month + d.day

/-- Python `(a - b).days` for two dates. -/
def daysBetween (a b : Date) : Int :=
  (a.toOrdinal : Int) - (b.toOrdinal : Int)

/-- `TaskValidator.validate_due_date`, with the validation-time `today` made
an explicit parameter. The whole Python body sits in one `try` block, so a
`ValueError` from building `datetime(today.year + 5, today.month, today.day)`
is caught by the same handler as a parse failure and appends the
format-error message. -/
def validate_due_date (today : Date) (due_date : Option String) : Bool × List String :=
  let errors : List String :=
    match due_date with
    | none => []
    | some s =>
      if s = "" then []
      else
        match parseDate s with
        | none => [dateFormatErr]
        | some d =>
          let pastErrs := if dateLt d today then [datePastErr] else []
          match mkDate (today.year + 5) today.month today.day with
          | none => pastErrs ++ [dateFormatErr]
          | some maxD => pastErrs ++ (if dateLt maxD d then [dateFutureErr] else [])
  (errors.isEmpty, errors)

/-- `TaskValidator.validate_task_data`: run the four field validators and
collect the errors of the failing ones, in order. -/
def validate_task_data (today : Date)
    (title description priority due_date : Option String) : Bool × List String :=
  let r1 := validate_title title
  let a1 := if r1.1 then [] else r1.2
  let r2 := validate_description description
  let a2 := if r2.1 then [] else r2.2
  let r3 := validate_priority priority
  let a3 := if r3.1 then [] else r3.2
  let r4 := validate_due_date today due_date
  let a4 := if r4.1 then [] else r4.2
  let all_errors := a1 ++ a2 ++ a3 ++ a4
  (all_errors.isEmpty, all_errors)

/-! ## Claims about the field validators and the sanitizer -/

/-- C3: `validate_title` rejects an absent or empty title as required; a
non-empty title is valid exactly when its trimmed length lies in [3, 200] and
every character of the trimmed title is alphanumeric, whitespace, or allowed
punctuation; the too-short, too-long and invalid-character violations carry
pairwise distinct messages and are not mutually exclusive (inputs exist that
are flagged with two of them at once). -/
theorem C3_validate_title_rules :
    validate_title none = (false, [titleRequiredErr]) ∧
    validate_title (some "") = (false, [titleRequiredErr]) ∧
    (∀ s : String, s ≠ "" →
      ((validate_title (some s)).1 = true ↔
        (3 ≤ (pyStrip s).length ∧ (pyStrip s).length ≤ 200 ∧
          ∀ c ∈ (pyStrip s).data, isAllowedTitleChar c = true))) ∧
    (titleTooShortErr ≠ titleTooLongErr ∧ titleTooShortErr ≠ titleInvalidCharErr ∧
      titleTooLongErr ≠ titleInvalidCharErr) ∧
    validate_title (some "@@") = (false, [titleTooShortErr, titleInvalidCharErr]) ∧
    validate_title (some (String.mk (List.replicate 201 '@'))) =
      (false, [titleTooLongErr, titleInvalidCharErr]) := by
  refine ⟨rfl, by decide, ?_, by decide, by decide, by decide⟩
  intro s hs
  have hconv : (∀ c ∈ (pyStrip s).data, isAllowedTitleChar c = true) ↔
      (pyStrip s).data.all isAllowedTitleChar = true := (List.all_eq_true).symm
  rw [hconv]
  by_cases h1 : (pyStrip s).length < 3 <;>
    by_cases h2 : 200 < (pyStrip s).length <;>
      by_cases h3 : (pyStrip s).data.all isAllowedTitleChar = true <;>
        (simp [validate_title, hs, h1, h2, h3]; try omega)

/-- C3 witness: the universally quantified part of `C3_validate_title_rules`
instantiated at the concrete title `"My Task"`. -/
theorem C3_validate_title_rules_witness : (validate_title (some "My Task")).1 = true :=
  (C3_validate_title_rules.2.2.1 "My Task" (by decide)).mpr (by decide)

/-- C5 counterexample: the empty string is not one of Low, Medium, High, yet
`validate_priority` accepts it (the Python truthiness guard skips the
membership test), so "for every priority string not in the set the validator
returns invalid" is false at the input `""`. -/
theorem C5_counterexample_empty_string :
    ("" : String) ∉ (["Low", "Medium", "High"] : List String) ∧
    (validate_priority (some "")).1 = true := by
  exact ⟨by decide, by decide⟩

/-- C5 amended: every non-empty priority string outside {Low, Medium, High} is
rejected (so the comparison is case-sensitive), and a present priority string
is accepted exactly when it is empty or one of the three literals; an absent
priority is also accepted. -/
theorem C5_validate_priority_amended :
    (∀ s : String, s ≠ "" → s ∉ (["Low", "Medium", "High"] : List String) →
      (validate_priority (some s)).1 = false) ∧
    (∀ s : String, (validate_priority (some s)).1 = true ↔
      (s = "" ∨ s = "Low" ∨ s = "Medium" ∨ s = "High")) ∧
    (validate_priority none).1 = true := by
  refine ⟨?_, ?_, rfl⟩
  · intro s h1 h2
    simp [validate_priority, h1, h2]
  · intro s
    by_cases h1 : s = ""
    · simp [validate_priority, h1]
    · by_cases h2 : s ∈ (["Low", "Medium", "High"] : List String)
      · simp only [List.mem_cons, List.not_mem_nil, or_false] at h2
        rcases h2 with h | h | h <;> simp [validate_priority, h]
      · simp only [List.mem_cons, List.not_mem_nil, or_false, not_or] at h2
        simp [validate_priority, h1, h2.1, h2.2.1, h2.2.2]

/-- C5 witness: `C5_validate_priority_amended` at the lower-case string
`"low"`, which is rejected. -/
theorem C5_validate_priority_amended_witness :
    (validate_priority (some "low")).1 = false :=
  C5_validate_priority_amended.1 "low" (by decide) (by decide)

/-- C7: `sanitize_input` maps `none` to `none`; a string whose trim is empty
maps to `none`; any other string maps to its trim with the five denylist
substrings stripped in order; concretely,
`"  <script>alert(1)</script>  "` sanitizes to `"alert(1)"`, and `""` and
`"   "` sanitize to `none`. -/
theorem C7_sanitize_input_spec :
    sanitize_input none = none ∧
    (∀ s : String, pyStrip s = "" → sanitize_input (some s) = none) ∧
    (∀ s : String, pyStrip s ≠ "" →
      sanitize_input (some s) = some (stripDenylist (pyStrip s))) ∧
    sanitize_input (some "  <script>alert(1)</script>  ") = some "alert(1)" ∧
    sanitize_input (some "") = none ∧
    sanitize_input (some "   ") = none := by
  refine ⟨rfl, ?_, ?_, by decide, by decide, by decide⟩
  · intro s h
    simp [sanitize_input, h]
  · intro s h
    simp [sanitize_input, stripDenylist, denylist, h]

/-- C7 witness: `C7_sanitize_input_spec` instantiated at `" abc "`. -/
theorem C7_sanitize_input_spec_witness :
    sanitize_input (some " abc ") = some (stripDenylist (pyStrip " abc ")) :=
  C7_sanitize_input_spec.2.2.1 " abc " (by decide)

/-- C10: the sanitizer is not idempotent: sanitizing
`"<scr<script>ipt>"` yields a string that still contains the denylisted
substring `"<script>"`, and sanitizing the result again changes it. -/
theorem C10_sanitize_input_not_idempotent :
    ∃ x : String,
      (∃ t, sanitize_input (some x) = some t ∧ ∃ p ∈ denylist, hasSubstr t p = true) ∧
      sanitize_input (sanitize_input (some x)) ≠ sanitize_input (some x) := by
  refine ⟨"<scr<script>ipt>", ⟨"<script>", by decide, "<script>", by decide, by decide⟩, by decide⟩

/-! ## Claim C1: the aggregator -/

/-- Emptiness of an appended error list. -/
theorem isEmpty_append_eq (l₁ l₂ : List String) :
    (l₁ ++ l₂).isEmpty = (l₁.isEmpty && l₂.isEmpty) := by
  cases l₁ <;> simp [List.isEmpty]

/-- A validator result whose flag equals emptiness of its error list
contributes exactly its error list to the aggregate. -/
theorem validator_fst_eq (r : Bool × List String)
    (h : r.1 = r.2.isEmpty) : (if r.1 then ([] : List String) else r.2) = r.2 := by
  rcases r with ⟨b, l⟩
  cases l <;> simp_all [List.isEmpty]

/-- `validate_title` returns valid exactly when it produced no error. -/
theorem validate_title_fst (t : Option String) :
    (validate_title t).1 = (validate_title t).2.isEmpty := by
  match t with
  | none => rfl
  | some s => by_cases h : s = "" <;> simp [validate_title, h]

/-- `validate_description` returns valid exactly when it produced no error. -/
theorem validate_description_fst (t : Option String) :
    (validate_description t).1 = (validate_description t).2.isEmpty := rfl

/-- `validate_priority` returns valid exactly when it produced no error. -/
theorem validate_priority_fst (t : Option String) :
    (validate_priority t).1 = (validate_priority t).2.isEmpty := rfl

/-- `validate_due_date` returns valid exactly when it produced no error. -/
theorem validate_due_date_fst (today : Date) (t : Option String) :
    (validate_due_date today t).1 = (validate_due_date today t).2.isEmpty := rfl

/-- Aggregation lemma: `validate_task_data` equals the pair of the
conjunction of the four flags and the ordered concatenation of the four
error lists. -/
theorem validate_task_data_eq (today : Date)
    (title description priority due_date : Option String) :
    validate_task_data today title description priority due_date =
      ((validate_title title).1 && (validate_description description).1 &&
        (validate_priority priority).1 && (validate_due_date today due_date).1,
       (validate_title title).2 ++ (validate_description description).2 ++
        (validate_priority priority).2 ++ (validate_due_date today due_date).2) := by
  have e1 := validator_fst_eq _ (validate_title_fst title)
  have e2 := validator_fst_eq _ (validate_description_fst description)
  have e3 := validator_fst_eq _ (validate_priority_fst priority)
  have e4 := validator_fst_eq _ (validate_due_date_fst today due_date)
  simp only [validate_task_data, e1, e2, e3, e4]
  refine Prod.ext ?_ rfl
  simp only [isEmpty_append_eq, validate_title_fst, validate_description_fst,
    validate_priority_fst, validate_due_date_fst, Bool.and_assoc]

/-- C1: `validate_task_data` runs all four field validators unconditionally,
returns the concatenation of their error lists in the order title,
description, priority, due date, and is valid exactly when all four are
(their conjunction). -/
theorem C1_validate_task_data_aggregates (today : Date)
    (title description priority due_date : Option String) :
    validate_task_data today title description priority due_date =
      ((validate_title title).1 && (validate_description description).1 &&
        (validate_priority priority).1 && (validate_due_date today due_date).1,
       (validate_title title).2 ++ (validate_description description).2 ++
        (validate_priority priority).2 ++ (validate_due_date today due_date).2) :=
  validate_task_data_eq today title description priority due_date

/-! ## Claim C4: the due-date validator -/

/-- C4 counterexample: at the real validation-time date 2024-02-29 the string
`"2024-03-01"` (the very next day) parses, is not before today, and is not
five years out, yet `validate_due_date` rejects it with the format-error
message: building `datetime(2029, 2, 29)` raises inside the same `try`
block. -/
theorem C4_counterexample_feb29 :
    parseDate "2024-03-01" = some ⟨2024, 3, 1⟩ ∧
    daysBetween ⟨2024, 3, 1⟩ ⟨2024, 2, 29⟩ = 1 ∧
    validDate 2024 2 29 = true ∧
    validate_due_date ⟨2024, 2, 29⟩ (some "2024-03-01") = (false, [dateFormatErr]) := by
  decide

/-- C4 amended: whenever the validation-time today's month and day exist in
year `today.year + 5` (which fails exactly for February 29, and for years
past 9994), a present due-date string gets the format error exactly when it
does not parse as a `YYYY-MM-DD` calendar date, and a string parsing to `d`
is valid exactly when `d` is not before today and not after today plus five
years; when that construction fails, every parseable string is rejected and
also receives the format error. -/
theorem C4_validate_due_date_amended :
    (∀ (today maxD : Date) (s : String),
      mkDate (today.year + 5) today.month today.day = some maxD → s ≠ "" →
      ((dateFormatErr ∈ (validate_due_date today (some s)).2 ↔ parseDate s = none) ∧
       (∀ d, parseDate s = some d →
         (validate_due_date today (some s)).1 = (!dateLt d today && !dateLt maxD d)))) ∧
    (∀ (today : Date) (s : String) (d : Date),
      mkDate (today.year + 5) today.month today.day = none → parseDate s = some d →
      (validate_due_date today (some s)).1 = false ∧
      dateFormatErr ∈ (validate_due_date today (some s)).2) := by
  have hfp : dateFormatErr ≠ datePastErr := by decide
  have hff : dateFormatErr ≠ dateFutureErr := by decide
  constructor
  · intro today maxD s hmk hs
    simp only [validate_due_date, if_neg hs]
    cases hp : parseDate s with
    | none => simp [hp]
    | some d =>
      simp only [hp, hmk]
      constructor
      · by_cases h1 : dateLt d today = true <;> by_cases h2 : dateLt maxD d = true <;>
          simp [h1, h2, hfp, hff]
      · intro d' hd'
        injection hd' with hd'
        subst hd'
        by_cases h1 : dateLt d today = true <;> by_cases h2 : dateLt maxD d = true <;>
          simp [h1, h2]
  · intro today s d hmk hd
    have hs : s ≠ "" := by
      intro h
      rw [h, show parseDate "" = none from rfl] at hd
      cases hd
    simp only [validate_due_date, if_neg hs, hd, hmk]
    by_cases h1 : dateLt d today = true <;> simp [h1]

/-- C4 witness: the amended theorem applied at today = 2026-10-12 with the
due date `"2027-01-01"`, which is accepted. -/
theorem C4_validate_due_date_amended_witness :
    (validate_due_date ⟨2026, 10, 12⟩ (some "2027-01-01")).1 = true :=
  ((C4_validate_due_date_amended.1 ⟨2026, 10, 12⟩ ⟨2031, 10, 12⟩ "2027-01-01"
      (by decide) (by decide)).2 ⟨2027, 1, 1⟩ (by decide)).trans (by decide)

/-! ## Data model and route handlers (`app.py`)

A task row; `created_at` is an abstract timestamp (larger = more recent),
`user_id` the owning user. The database is a list of rows. -/

structure TaskRec where
  id : Nat
  title : String
  description : Option String
  priority : Option String
  due_date : Option String
  status : String
  duration : Int
  completed : Bool
  created_at : Nat
  user_id : Nat
deriving Repr, DecidableEq

/-- `Task.query.filter_by(id=task_id, user_id=user_id).first()`: ownership is
part of the lookup key. -/
def findTask (ts : List TaskRec) (tid uid : Nat) : Option TaskRec :=
  ts.find? (fun t => t.id == tid && t.user_id == uid)

/-- Outcome of a task action: success, the 404 raised by `first_or_404`
(carrying no task data), or a validation failure with its error list. -/
inductive ActionResult where
  | ok
  | notFound
  | validationFailed (errors : List String)
deriving Repr, DecidableEq

/-- Auto-incrementing primary key for a new row. -/
def nextId (ts : List TaskRec) : Nat :=
  ts.foldl (fun m t => max m t.id) 0 + 1

/-- Raw form fields of an add/edit request, after HTTP decoding: `none` is an
absent field. `status` and `duration` are taken unsanitized by the handlers;
`duration` is modelled as the already-converted integer. -/
structure TaskForm where
  title : Option String
  description : Option String
  priority : Option String
  due_date : Option String
  status : Option String
  duration : Option Int
deriving Repr

/-- `x or 'None'` on an optional string. -/
def orNoneStr (p : Option String) : String :=
  match p with
  | none => "None"
  | some "" => "None"
  | some s => s

/-- `request.form.get("status") or "Not Started"`. -/
def statusOrDefault (st : Option String) : String :=
  match st with
  | none => "Not Started"
  | some "" => "Not Started"
  | some s => s

/-- `add_task` (`POST /add`): sanitize the form, substituting the literal
string `"None"` when the priority field is absent, validate, and on success
insert the new row for the session user. -/
def add_task (today : Date) (now : Nat) (ts : List TaskRec) (uid : Nat)
    (form : TaskForm) : List TaskRec × ActionResult :=
  let title := sanitize_input form.title
  let description := sanitize_input form.description
  let priority := sanitize_input (some (form.priority.getD "None"))
  let due_date := sanitize_input form.due_date
  let r := validate_task_data today title description priority due_date
  if r.1 then
    let newTask : TaskRec :=
      { id := nextId ts
        title := title.getD ""
        description := match description with | some "" => none | d => d
        priority := priority
        due_date := due_date
        status := statusOrDefault form.status
        duration := form.duration.getD 0
        completed := false
        created_at := now
        user_id := uid }
    (ts ++ [newTask], .ok)
  else
    (ts, .validationFailed r.2)

/-- `edit_task` (`POST /edit/<task_id>`): look the task up under the session
user first (404 when absent), then sanitize, validate, and on success update
the row in place. -/
def edit_task (today : Date) (ts : List TaskRec) (uid tid : Nat)
    (form : TaskForm) : List TaskRec × ActionResult :=
  match findTask ts tid uid with
  | none => (ts, .notFound)
  | some _ =>
    let title := sanitize_input form.title
    let description := sanitize_input form.description
    let priority := sanitize_input (some (form.priority.getD "None"))
    let due_date := sanitize_input form.due_date
    let r := validate_task_data today title description priority due_date
    if r.1 then
      (ts.map (fun t =>
        if t.id == tid && t.user_id == uid then
          { t with
            title := title.getD ""
            description := description
            priority := some (orNoneStr priority)
            due_date := due_date
            status := statusOrDefault form.status
            duration := form.duration.getD 0 }
        else t), .ok)
    else
      (ts, .validationFailed r.2)

/-- `toggle_task` (`POST /toggle/<task_id>`): flip `completed` on the task if
owned by the session user, else 404. -/
def toggle_task (ts : List TaskRec) (uid tid : Nat) : List TaskRec × ActionResult :=
  match findTask ts tid uid with
  | none => (ts, .notFound)
  | some _ =>
    (ts.map (fun t =>
      if t.id == tid && t.user_id == uid then { t with completed := !t.completed }
      else t), .ok)

/-- `delete_task` (`POST /delete/<task_id>`): remove the task if owned by the
session user, else 404. -/
def delete_task (ts : List TaskRec) (uid tid : Nat) : List TaskRec × ActionResult :=
  match findTask ts tid uid with
  | none => (ts, .notFound)
  | some _ =>
    (ts.filter (fun t => !(t.id == tid && t.user_id == uid)), .ok)

/-! ## Claim C2: ownership-scoped lookups -/

/-- C2: whenever no task with id `tid` exists under the acting user `uid` —
in particular when that id belongs to a different user — edit, toggle and
delete all return the not-found outcome, which carries none of the task's
data, and leave the task store unchanged. -/
theorem C2_cross_account_not_found (today : Date) (ts : List TaskRec)
    (uid tid : Nat) (form : TaskForm) (h : findTask ts tid uid = none) :
    edit_task today ts uid tid form = (ts, .notFound) ∧
    toggle_task ts uid tid = (ts, .notFound) ∧
    delete_task ts uid tid = (ts, .notFound) := by
  simp [edit_task, toggle_task, delete_task, h]

/-- A store holding one task with id 1 owned by user 2. -/
def crossTask : TaskRec :=
  { id := 1, title := "Task of user two", description := none, priority := none,
    due_date := none, status := "Not Started", duration := 0, completed := false,
    created_at := 5, user_id := 2 }

/-- C2 witness: user 1 acting on task id 1, which exists but is owned by
user 2; all three operations report not-found and change nothing. -/
theorem C2_cross_account_not_found_witness :
    edit_task ⟨2026, 10, 12⟩ [crossTask] 1 1 ⟨none, none, none, none, none, none⟩ =
      ([crossTask], .notFound) ∧
    toggle_task [crossTask] 1 1 = ([crossTask], .notFound) ∧
    delete_task [crossTask] 1 1 = ([crossTask], .notFound) :=
  C2_cross_account_not_found ⟨2026, 10, 12⟩ [crossTask] 1 1
    ⟨none, none, none, none, none, none⟩ (by decide)

/-! ## Claim C6: absent priority at the add-task call site -/

/-- An add-task submission with a valid title and no other field supplied. -/
def absentPriorityForm : TaskForm :=
  { title := some "Buy milk", description := none, priority := none,
    due_date := none, status := none, duration := none }

/-- C6 counterexample: with the priority field absent the call site
substitutes the literal string `"None"`, `validate_priority` rejects it, and
`add_task` creates no task even though title, description and due date are
all valid — refuting "validation passes and the task is created". -/
theorem C6_counterexample_absent_priority :
    (validate_title (sanitize_input absentPriorityForm.title)).1 = true ∧
    (validate_description (sanitize_input absentPriorityForm.description)).1 = true ∧
    (validate_due_date ⟨2026, 10, 12⟩ (sanitize_input absentPriorityForm.due_date)).1 = true ∧
    add_task ⟨2026, 10, 12⟩ 7 [] 1 absentPriorityForm =
      ([], .validationFailed [priorityInvalidErr]) := by
  decide

/-- C6 amended: for every add-task submission in which the priority field is
absent, the call site substitutes the literal string `"None"`, which
`validate_priority` rejects, so validation fails with the invalid-priority
error and no task is created (the store is unchanged), regardless of the
other fields. -/
theorem C6_add_task_absent_priority_amended :
    ∀ (today : Date) (now : Nat) (ts : List TaskRec) (uid : Nat) (form : TaskForm),
      form.priority = none →
      (add_task today now ts uid form).1 = ts ∧
      ∃ errs, (add_task today now ts uid form).2 = .validationFailed errs ∧
        priorityInvalidErr ∈ errs := by
  intro today now ts uid form hp
  have hsan : sanitize_input (some (form.priority.getD "None")) = some "None" := by
    rw [hp]
    decide
  have hpr : validate_priority (some "None") = (false, [priorityInvalidErr]) := by decide
  simp only [add_task, hsan, validate_task_data_eq, hpr, Bool.and_false, Bool.false_and]
  simp

/-- C6 witness: the amended theorem at the concrete absent-priority form. -/
theorem C6_add_task_absent_priority_amended_witness :
    (add_task ⟨2026, 10, 12⟩ 7 [] 1 absentPriorityForm).1 = [] ∧
    ∃ errs, (add_task ⟨2026, 10, 12⟩ 7 [] 1 absentPriorityForm).2 = .validationFailed errs ∧
      priorityInvalidErr ∈ errs :=
  C6_add_task_absent_priority_amended ⟨2026, 10, 12⟩ 7 [] 1 absentPriorityForm rfl

/-! ## Account model and registration (`app.py`) -/

structure UserRec where
  id : Nat
  username : String
  email : String
  password_hash : String
deriving Repr, DecidableEq

/-- Stand-in for werkzeug's `generate_password_hash` (an external
collaborator): an injective tagging of the password. -/
def generate_password_hash (p : String) : String := "hash:".append p

/-- Outcome of the registration action. -/
inductive RegisterResult where
  | success
  | failure (errors : List String)
deriving Repr, DecidableEq

def usernameLenErr : String := "Username must be at least 3 characters long."
def emailInvalidErr : String := "Please enter a valid email address."
def passwordLenErr : String := "Password must be at least 6 characters long."
def passwordMatchErr : String := "Passwords do not match."
def usernameDupErr : String := "Username already exists."
def emailDupErr : String := "Email already registered."

/-- Auto-incrementing primary key for a new account row. -/
def nextUserId (store : List UserRec) : Nat :=
  store.foldl (fun m u => max m u.id) 0 + 1

/-- The validation block of `register`, in source order: username length,
email shape, password length, confirmation match, duplicate username,
duplicate email. -/
def registration_errors (store : List UserRec)
    (username email password confirm_password : Option String) : List String :=
  (if (match username with | none => true | some u => decide (u.length < 3)) = true
    then [usernameLenErr] else []) ++
  (if (match email with | none => true | some e => !(e.data.contains '@')) = true
    then [emailInvalidErr] else []) ++
  (if (match password with | none => true | some p => decide (p.length < 6)) = true
    then [passwordLenErr] else []) ++
  (if password ≠ confirm_password then [passwordMatchErr] else []) ++
  (if store.any (fun u => username == some u.username) then [usernameDupErr] else []) ++
  (if store.any (fun u => email == some u.email) then [emailDupErr] else [])

/-- `register` (`POST /register`): if any check fails, flash the errors and
commit nothing; otherwise insert the new account row. -/
def register (store : List UserRec)
    (username email password confirm_password : Option String) :
    List UserRec × RegisterResult :=
  let errors := registration_errors store username email password confirm_password
  if errors.isEmpty then
    let newUser : UserRec :=
      { id := nextUserId store
        username := username.getD ""
        email := email.getD ""
        password_hash := generate_password_hash (password.getD "") }
    (store ++ [newUser], .success)
  else (store, .failure errors)

/-- Usernames and emails are pairwise distinct across the account store. -/
def distinctAccounts (store : List UserRec) : Prop :=
  store.Pairwise (fun a b => a.username ≠ b.username ∧ a.email ≠ b.email)

/-- C8: registering with a username or email that already exists leaves the
account store unchanged and fails with the corresponding duplicate error;
moreover registration preserves global uniqueness of usernames and emails. -/
theorem C8_register_duplicate_atomic :
    (∀ (store : List UserRec) (username email password confirm : Option String),
      ((∃ u ∈ store, username = some u.username) ∨ (∃ u ∈ store, email = some u.email)) →
      (register store username email password confirm).1 = store ∧
      ∃ errs, (register store username email password confirm).2 = .failure errs ∧
        (usernameDupErr ∈ errs ∨ emailDupErr ∈ errs)) ∧
    (∀ (store : List UserRec) (username email password confirm : Option String),
      distinctAccounts store →
      distinctAccounts (register store username email password confirm).1) := by
  constructor
  · intro store username email password confirm h
    have hmem : usernameDupErr ∈ registration_errors store username email password confirm ∨
        emailDupErr ∈ registration_errors store username email password confirm := by
      rcases h with ⟨u, hu, he⟩ | ⟨u, hu, he⟩
      · left
        have hany : store.any (fun v => username == some v.username) = true :=
          List.any_eq_true.mpr ⟨u, hu, by rw [he]; simp⟩
        simp [registration_errors, hany]
      · right
        have hany : store.any (fun v => email == some v.email) = true :=
          List.any_eq_true.mpr ⟨u, hu, by rw [he]; simp⟩
        simp [registration_errors, hany]
    have hne : registration_errors store username email password confirm ≠ [] := by
      rcases hmem with hm | hm <;> exact List.ne_nil_of_mem hm
    have hE : ¬(registration_errors store username email password confirm).isEmpty = true :=
      fun hx => hne (List.isEmpty_iff.mp hx)
    refine ⟨?_, ?_⟩
    · simp only [register, if_neg hE]
    · exact ⟨registration_errors store username email password confirm,
        by simp only [register, if_neg hE], hmem⟩
  · intro store username email password confirm h
    by_cases hE : (registration_errors store username email password confirm).isEmpty = true
    · simp only [register, if_pos hE]
      unfold distinctAccounts
      rw [List.pairwise_append]
      refine ⟨h, by simp, ?_⟩
      have hnil := List.isEmpty_iff.mp hE
      simp only [registration_errors, List.append_eq_nil] at hnil
      obtain ⟨⟨⟨⟨⟨h1, h2⟩, h3⟩, h4⟩, h5⟩, h6⟩ := hnil
      have hu : store.any (fun u => username == some u.username) = false := by
        by_cases hx : store.any (fun u => username == some u.username) = true
        · rw [if_pos hx] at h5; cases h5
        · exact Bool.eq_false_iff.mpr hx
      have he : store.any (fun u => email == some u.email) = false := by
        by_cases hx : store.any (fun u => email == some u.email) = true
        · rw [if_pos hx] at h6; cases h6
        · exact Bool.eq_false_iff.mpr hx
      have husome : ∃ u0, username = some u0 := by
        cases username with
        | none => simp at h1
        | some u0 => exact ⟨u0, rfl⟩
      have hesome : ∃ e0, email = some e0 := by
        cases email with
        | none => simp at h2
        | some e0 => exact ⟨e0, rfl⟩
      obtain ⟨u0, hu0⟩ := husome
      obtain ⟨e0, he0⟩ := hesome
      intro a ha b hb
      rw [List.mem_singleton] at hb
      subst hb
      have hau : ¬(username == some a.username) = true := List.any_eq_false.mp hu a ha
      have hae : ¬(email == some a.email) = true := List.any_eq_false.mp he a ha
      rw [hu0] at hau
      rw [he0] at hae
      simp only [beq_iff_eq, Option.some.injEq] at hau hae
      constructor
      · simp only [hu0, Option.getD_some]
        exact fun hc => hau hc.symm
      · simp only [he0, Option.getD_some]
        exact fun hc => hae hc.symm
    · simp only [register, if_neg hE]
      exact h

/-- An account store holding one user named alice. -/
def aliceUser : UserRec :=
  { id := 1, username := "alice", email := "alice@example.com",
    password_hash := "hash:pw1234" }

/-- C8 witness: registering a second "alice" fails with the duplicate
username error and adds no row. -/
theorem C8_register_duplicate_atomic_witness :
    (register [aliceUser] (some "alice") (some "bob@example.com")
      (some "secret7") (some "secret7")).1 = [aliceUser] ∧
    ∃ errs, (register [aliceUser] (some "alice") (some "bob@example.com")
      (some "secret7") (some "secret7")).2 = .failure errs ∧
      (usernameDupErr ∈ errs ∨ emailDupErr ∈ errs) :=
  C8_register_duplicate_atomic.1 [aliceUser] (some "alice") (some "bob@example.com")
    (some "secret7") (some "secret7") (Or.inl ⟨aliceUser, by decide, by decide⟩)

/-! ## Claim C9: the task list (`index` in `app.py`) -/

/-- The ordering used by `order_by(Task.created_at.desc())`: most recent
first. -/
def createdDesc (a b : TaskRec) : Prop := b.created_at ≤ a.created_at

instance : DecidableRel createdDesc := fun a b => Nat.decLe b.created_at a.created_at

instance : IsTotal TaskRec createdDesc := ⟨fun a b => Nat.le_total b.created_at a.created_at⟩

instance : IsTrans TaskRec createdDesc := ⟨fun _ _ _ h1 h2 => Nat.le_trans h2 h1⟩

/-- The body of the per-task loop in `index`: a task with no due date (or an
empty one) gets no `days_left`; otherwise the stored string is parsed with
`strptime` (raising — `none` — when malformed, which the route does not
catch) and `days_left = (due_date - today).days`. -/
def annotateTask (today : Date) (t : TaskRec) : Option (TaskRec × Option Int) :=
  match t.due_date with
  | none => some (t, none)
  | some s =>
    if s = "" then some (t, none)
    else
      match parseDate s with
      | none => none
      | some d => some (t, some (daysBetween d today))

/-- The loop over the task list. -/
def annotateTasks (today : Date) : List TaskRec → Option (List (TaskRec × Option Int))
  | [] => some []
  | t :: rest =>
    match annotateTask today t, annotateTasks today rest with
    | some p, some ps => some (p :: ps)
    | _, _ => none

/-- `index` (`GET /`): the session user's tasks ordered by creation time
descending, each annotated with its remaining days. -/
def taskIndex (ts : List TaskRec) (uid : Nat) (today : Date) :
    Option (List (TaskRec × Option Int)) :=
  annotateTasks today ((ts.filter (fun t => t.user_id == uid)).insertionSort createdDesc)

/-- What the days-remaining annotation of one listed task must be. -/
def daysAnnotationSpec (today : Date) (p : TaskRec × Option Int) : Prop :=
  match p.1.due_date with
  | none => p.2 = none
  | some s =>
    if s = "" then p.2 = none
    else ∃ d, parseDate s = some d ∧ p.2 = some (daysBetween d today)

/-- A successful annotation keeps the task and satisfies the days spec. -/
theorem annotateTask_eq_some (today : Date) (t : TaskRec) (p : TaskRec × Option Int)
    (h : annotateTask today t = some p) : p.1 = t ∧ daysAnnotationSpec today p := by
  unfold daysAnnotationSpec
  cases hd : t.due_date with
  | none =>
    simp only [annotateTask, hd] at h
    injection h with h
    subst h
    simp [hd]
  | some s =>
    by_cases hs : s = ""
    · simp only [annotateTask, hd, if_pos hs] at h
      injection h with h
      subst h
      simp [hd, hs]
    · simp only [annotateTask, hd, if_neg hs] at h
      cases hp : parseDate s with
      | none => rw [hp] at h; cases h
      | some d =>
        rw [hp] at h
        injection h with h
        subst h
        simp [hd, hs, hp]

/-- A successful annotation pass returns the same tasks in the same order,
each annotated per the days spec. -/
theorem annotateTasks_eq_some (today : Date) :
    ∀ (l : List TaskRec) (out : List (TaskRec × Option Int)),
      annotateTasks today l = some out →
      out.map Prod.fst = l ∧ ∀ p ∈ out, daysAnnotationSpec today p := by
  intro l
  induction l with
  | nil =>
    intro out h
    injection h with h
    subst h
    simp
  | cons t rest ih =>
    intro out h
    unfold annotateTasks at h
    cases h1 : annotateTask today t with
    | none => rw [h1] at h; cases h
    | some p =>
      rw [h1] at h
      cases h2 : annotateTasks today rest with
      | none => rw [h2] at h; cases h
      | some ps =>
        rw [h2] at h
        injection h with h
        subst h
        obtain ⟨hf, hspec⟩ := annotateTask_eq_some today t p h1
        obtain ⟨hmap, hall⟩ := ih ps h2
        refine ⟨by simp [hf, hmap], ?_⟩
        intro q hq
        rcases List.mem_cons.mp hq with hq | hq
        · subst hq; exact hspec
        · exact hall q hq

/-- C9: a successful task listing consists of exactly the session user's
tasks (a permutation of the ownership filter), sorted by creation time with
the most recent first, each annotated with days-remaining `dueDate - today`
(and no annotation when there is no due date). -/
theorem C9_taskIndex_spec :
    ∀ (ts : List TaskRec) (uid : Nat) (today : Date) (out : List (TaskRec × Option Int)),
      taskIndex ts uid today = some out →
      (out.map Prod.fst).Perm (ts.filter (fun t => t.user_id == uid)) ∧
      (out.map Prod.fst).Sorted createdDesc ∧
      ∀ p ∈ out, daysAnnotationSpec today p := by
  intro ts uid today out h
  obtain ⟨hmap, hall⟩ := annotateTasks_eq_some today _ out h
  refine ⟨?_, ?_, hall⟩
  · rw [hmap]
    exact List.perm_insertionSort createdDesc _
  · rw [hmap]
    exact List.sorted_insertionSort createdDesc _

/-- User 1's older task, due 2026-10-20. -/
def reportTask : TaskRec :=
  { id := 1, title := "Write report", description := none, priority := some "High",
    due_date := some "2026-10-20", status := "Not Started", duration := 2,
    completed := false, created_at := 1, user_id := 1 }

/-- User 1's newer task, with no due date. -/
def rentTask : TaskRec :=
  { id := 2, title := "Pay rent", description := none, priority := none,
    due_date := none, status := "Not Started", duration := 0,
    completed := false, created_at := 5, user_id := 1 }

/-- A task of user 2, to be excluded from user 1's listing. -/
def otherUserTask : TaskRec :=
  { id := 3, title := "Someone elses task", description := none, priority := none,
    due_date := none, status := "Not Started", duration := 0,
    completed := false, created_at := 3, user_id := 2 }

/-- C9 witness: the listing of user 1 on 2026-10-12 is the newer task first
with no annotation, then the older task with 8 days remaining. -/
theorem C9_taskIndex_spec_witness :
    (([(rentTask, none), (reportTask, some 8)] : List (TaskRec × Option Int)).map
      Prod.fst).Perm ([reportTask, rentTask, otherUserTask].filter
        (fun t => t.user_id == 1)) ∧
    (([(rentTask, none), (reportTask, some 8)] : List (TaskRec × Option Int)).map
      Prod.fst).Sorted createdDesc ∧
    ∀ p ∈ ([(rentTask, (none : Option Int)), (reportTask, some 8)] :
      List (TaskRec × Option Int)), daysAnnotationSpec ⟨2026, 10, 12⟩ p :=
  C9_taskIndex_spec [reportTask, rentTask, otherUserTask] 1 ⟨2026, 10, 12⟩
    [(rentTask, none), (reportTask, some 8)] (by decide)
